import Mathlib

set_option autoImplicit false

/-
Verification development for the Two Cars clone (single-file SDL game).

The repository ships two revisions of main.cpp; functions that differ
between them are embedded twice, with suffix V1 for the first revision
and V2 for the second.  Rendering and audio calls are side effects with
no influence on the game state and are dropped; every state-bearing
statement of the source is embedded.  SDL textures used as entity
discriminants are embedded as an Option Kind field, where none models an
entity whose texture pointer was never assigned (a path that exists in
spawnObstacle).  Randomness (std::shuffle, rand) is passed in as
parameters: the first two values of the shuffled lane vector and the two
per-iteration coin flips (coin = true models rand() % 2 == 0).
Wall-clock times are natural-number milliseconds passed as a parameter,
and the highscore file is an Option value passed to / returned from the
persistence functions.  A ghost field counts saveHighscore invocations.
-/

namespace TwoCars

def SCREEN_WIDTH : Int := 405
def SCREEN_HEIGHT : Int := 720
def CAR_WIDTH : Int := SCREEN_WIDTH / 10
def CAR_HEIGHT : Int := SCREEN_HEIGHT / 11
def LANE_WIDTH : Int := SCREEN_WIDTH / 4
def LANE_1 : Int := LANE_WIDTH / 2 - CAR_WIDTH / 2
def LANE_2 : Int := LANE_WIDTH + LANE_WIDTH / 2 - CAR_WIDTH / 2
def LANE_3 : Int := 2 * LANE_WIDTH + LANE_WIDTH / 2 - CAR_WIDTH / 2
def LANE_4 : Int := 3 * LANE_WIDTH + LANE_WIDTH / 2 - CAR_WIDTH / 2
def OBSTACLE_SIZE : Int := SCREEN_WIDTH / 10

inductive GameState
  | MAIN_MENU
  | NORMAL_MODE
  | DEATH_SCREEN
deriving DecidableEq

/-- The four obstacle textures used as entity discriminants. -/
inductive Kind
  | redBox
  | redCircle
  | blueBox
  | blueCircle
deriving DecidableEq

structure Rect where
  x : Int
  y : Int
  w : Int
  h : Int
deriving DecidableEq

/-- Entity: texture discriminant (none = texture pointer never assigned),
destRect fields, collected flag.  srcRect is render-only and dropped. -/
structure Entity where
  kind : Option Kind
  x : Int
  y : Int
  w : Int
  h : Int
  collected : Bool
deriving DecidableEq

def Entity.rect (o : Entity) : Rect := ⟨o.x, o.y, o.w, o.h⟩

/-- Car: Entity destRect plus the two animation states of the Car class. -/
structure Car where
  x : Int
  y : Int
  w : Int
  h : Int
  angle : ℝ
  rotating : Bool
  rotationStartTime : ℕ
  moving : Bool
  targetX : Int
  moveStartTime : ℕ

def Car.rect (c : Car) : Rect := ⟨c.x, c.y, c.w, c.h⟩

def rotationDuration : ℕ := 200
def moveDuration : ℕ := 200

/-- Car::updateRotation.  The C++ double angle is embedded as a real. -/
noncomputable def updateRotation (now : ℕ) (c : Car) : Car :=
  if c.rotating then
    let elapsedTime := now - c.rotationStartTime
    if elapsedTime < rotationDuration then
      { c with angle := 15 * Real.sin (Real.pi / (rotationDuration : ℝ) * (elapsedTime : ℝ)) }
    else
      { c with angle := 0, rotating := false }
  else c

/-- Truncation toward zero, as in a C++ double-to-int conversion. -/
def truncToInt (q : ℚ) : Int := if 0 ≤ q then ⌊q⌋ else ⌈q⌉

/-- Car::updateMovement.  The double arithmetic of the easing branch is
embedded over the rationals with truncation on assignment to the int
destRect.x. -/
def updateMovement (now : ℕ) (c : Car) : Car :=
  if c.moving then
    let elapsedTime := now - c.moveStartTime
    if elapsedTime < moveDuration then
      { c with x := truncToInt ((c.x : ℚ) +
          ((elapsedTime : ℚ) / (moveDuration : ℚ)) * ((c.targetX : ℚ) - (c.x : ℚ))) }
    else
      { c with x := c.targetX, moving := false }
  else c

structure Game where
  isRunning : Bool
  state : GameState
  obstacles : List Entity
  blueCar : Car
  redCar : Car
  startTime : ℕ
  score : Int
  spawnRate : Int
  obstacleSpeed : Int
  highscore : Int
  patternTimer : Int
  saves : ℕ

/-- SDL_HasIntersection: empty rects never intersect; otherwise strict
axis-aligned overlap. -/
def hasIntersection (a b : Rect) : Bool :=
  a.w > 0 && a.h > 0 && b.w > 0 && b.h > 0 &&
  a.x < b.x + b.w && b.x < a.x + a.w &&
  a.y < b.y + b.h && b.y < a.y + a.h

/-- The four per-call uniqueness flags of Game::spawnObstacle. -/
structure SpawnFlags where
  redBoxSpawned : Bool := false
  blueBoxSpawned : Bool := false
  redCircleSpawned : Bool := false
  blueCircleSpawned : Bool := false

/-- Texture selection of one loop iteration of spawnObstacle: lane values
0 and 1 pick the red side, 2 and 3 the blue side; a coin (rand()%2==0)
prefers the box when its flag is unset, else the circle when its flag is
unset, else the texture is left unassigned. -/
def chooseKind (lane : ℕ) (coin : Bool) (f : SpawnFlags) : Option Kind × SpawnFlags :=
  if lane = 0 ∨ lane = 1 then
    if !f.redBoxSpawned && coin then (some Kind.redBox, { f with redBoxSpawned := true })
    else if !f.redCircleSpawned then (some Kind.redCircle, { f with redCircleSpawned := true })
    else (none, f)
  else
    if !f.blueBoxSpawned && coin then (some Kind.blueBox, { f with blueBoxSpawned := true })
    else if !f.blueCircleSpawned then (some Kind.blueCircle, { f with blueCircleSpawned := true })
    else (none, f)

/-- destRect.x of one spawnObstacle iteration. -/
def laneX (lane : ℕ) : Int :=
  if lane = 0 ∨ lane = 1 then
    if lane = 0 then LANE_3 else LANE_4
  else
    if lane = 2 then LANE_1 else LANE_2

/-- destRect.y of one spawnObstacle iteration: starts one obstacle height
off-screen, then the two minimum-gap adjustments (one for boxes, one for
circles) against the last element of the obstacle vector. -/
def spawnY (k : Option Kind) (obstacles : List Entity) : Int :=
  let y0 : Int := -OBSTACLE_SIZE
  let y1 : Int :=
    if k = some Kind.redBox ∨ k = some Kind.blueBox then
      match obstacles.getLast? with
      | some lastObstacle =>
          if lastObstacle.y < CAR_HEIGHT + 10 then lastObstacle.y - (CAR_HEIGHT + 10) else y0
      | none => y0
    else y0
  if k = some Kind.redCircle ∨ k = some Kind.blueCircle then
    match obstacles.getLast? with
    | some lastObstacle =>
        if lastObstacle.y < CAR_HEIGHT + 10 then lastObstacle.y - (CAR_HEIGHT + 10) else y1
    | none => y1
  else y1

def spawnEntity (lane : ℕ) (k : Option Kind) (obstacles : List Entity) : Entity :=
  { kind := k, x := laneX lane, y := spawnY k obstacles,
    w := OBSTACLE_SIZE, h := OBSTACLE_SIZE, collected := false }

/-- One iteration of the spawnObstacle for-loop: choose texture, set
rects, apply the gap adjustments, push_back. -/
def spawnIter (lane : ℕ) (coin : Bool) (f : SpawnFlags) (obstacles : List Entity) :
    SpawnFlags × List Entity :=
  let kf := chooseKind lane coin f
  (kf.2, obstacles ++ [spawnEntity lane kf.1 obstacles])

/-- The two loop iterations executed when patternTimer reaches zero,
driven by the first two values of the shuffled lane vector and the two
coin flips. -/
def spawnPattern (l0 l1 : ℕ) (c0 c1 : Bool) (obstacles : List Entity) : List Entity :=
  let r0 := spawnIter l0 c0 {} obstacles
  (spawnIter l1 c1 r0.1 r0.2).2

/-- Game::spawnObstacle, with the static patternTimer held in the game
state. -/
def spawnObstacle (l0 l1 : ℕ) (c0 c1 : Bool) (g : Game) : Game :=
  if g.patternTimer = 0 then
    { g with obstacles := spawnPattern l0 l1 c0 c1 g.obstacles,
             patternTimer := g.spawnRate }
  else
    { g with patternTimer := g.patternTimer - 1 }

/-- State effect of the remove_if predicate in Game::updateObstacles: an
off-screen uncollected circle is a miss and sets DEATH_SCREEN. -/
def cullStep (st : GameState) (o : Entity) : GameState :=
  if o.y > SCREEN_HEIGHT then
    if (o.kind = some Kind.redCircle ∨ o.kind = some Kind.blueCircle) ∧ o.collected = false then
      GameState.DEATH_SCREEN
    else st
  else st

/-- Game::updateObstacles: advance every obstacle by obstacleSpeed, then
erase every obstacle below the screen, signalling a miss for uncollected
circles. -/
def updateObstacles (g : Game) : Game :=
  let moved := g.obstacles.map (fun o => { o with y := o.y + g.obstacleSpeed })
  { g with
    state := moved.foldl cullStep g.state,
    obstacles := moved.filter (fun o => decide (o.y ≤ SCREEN_HEIGHT)) }

/-- The body of the collision loop for one obstacle: the red-car check
followed by the blue-car check, threading score, state and the collected
flag exactly as the source does. -/
def collideOneStep (red blue : Rect) (o : Entity) (s : Int) (st : GameState) :
    Int × GameState × Entity :=
  let r1 : Int × GameState × Entity :=
    if hasIntersection red o.rect then
      if o.kind = some Kind.redBox then (s, GameState.DEATH_SCREEN, o)
      else if o.kind = some Kind.redCircle ∧ o.collected = false then
        (s + 1, st, { o with collected := true })
      else (s, st, o)
    else (s, st, o)
  if hasIntersection blue r1.2.2.rect then
    if r1.2.2.kind = some Kind.blueBox then (r1.1, GameState.DEATH_SCREEN, r1.2.2)
    else if r1.2.2.kind = some Kind.blueCircle ∧ r1.2.2.collected = false then
      (r1.1 + 1, r1.2.1, { r1.2.2 with collected := true })
    else (r1.1, r1.2.1, r1.2.2)
  else (r1.1, r1.2.1, r1.2.2)

/-- The collision loop over the whole obstacle vector. -/
def collideList (red blue : Rect) : List Entity → Int → GameState → Int × GameState × List Entity
  | [], s, st => (s, st, [])
  | o :: rest, s, st =>
    let r := collideOneStep red blue o s st
    let rr := collideList red blue rest r.1 r.2.1
    (rr.1, rr.2.1, r.2.2 :: rr.2.2)

/-- Game::checkCollision: the loop, then erase of collected entities,
then the highscore update + saveHighscore call (counted in saves). -/
def checkCollision (g : Game) : Game :=
  let r := collideList g.redCar.rect g.blueCar.rect g.obstacles g.score g.state
  let g2 := { g with score := r.1, state := r.2.1,
                     obstacles := r.2.2.filter (fun o => !o.collected) }
  if g2.state = GameState.DEATH_SCREEN ∧ g2.score > g2.highscore then
    { g2 with highscore := g2.score, saves := g2.saves + 1 }
  else g2

/-- Predicate: this obstacle is an uncollected circle touching the car of
its color, so the loop collects it and increments the score. -/
def newlyCollected (red blue : Rect) (o : Entity) : Bool :=
  !o.collected &&
    ((decide (o.kind = some Kind.redCircle) && hasIntersection red o.rect) ||
     (decide (o.kind = some Kind.blueCircle) && hasIntersection blue o.rect))

/-- Predicate: this obstacle is a lethal box touching the car of its
color. -/
def boxHit (red blue : Rect) (o : Entity) : Bool :=
  (decide (o.kind = some Kind.redBox) && hasIntersection red o.rect) ||
  (decide (o.kind = some Kind.blueBox) && hasIntersection blue o.rect)

/-- Game::increaseDifficulty of the first revision (15 s schedule, guard
spawnRate > 10).  Returns the new spawnRate, obstacleSpeed and
lastIncreaseTime. -/
def increaseDifficultyV1 (now startTime lastIncreaseTime : ℕ) (spawnRate obstacleSpeed : Int) :
    Int × Int × ℕ :=
  let elapsedTime := (now - startTime) / 1000
  if elapsedTime % 15 = 0 ∧ now - lastIncreaseTime ≥ 1000 then
    ((if spawnRate > 10 then spawnRate - 20 else spawnRate),
     (if obstacleSpeed < 15 then obstacleSpeed + 2 else obstacleSpeed),
     now)
  else (spawnRate, obstacleSpeed, lastIncreaseTime)

/-- Game::increaseDifficulty of the second revision (30 s schedule, guard
spawnRate > 20). -/
def increaseDifficultyV2 (now startTime lastIncreaseTime : ℕ) (spawnRate obstacleSpeed : Int) :
    Int × Int × ℕ :=
  let elapsedTime := (now - startTime) / 1000
  if elapsedTime % 30 = 0 ∧ now - lastIncreaseTime ≥ 1000 then
    ((if spawnRate > 20 then spawnRate - 20 else spawnRate),
     (if obstacleSpeed < 15 then obstacleSpeed + 2 else obstacleSpeed),
     now)
  else (spawnRate, obstacleSpeed, lastIncreaseTime)

/-- A run of V1 increaseDifficulty calls at the given tick times, for a
session begun at time 0, from the reset values (80, 6) and the initial
static lastIncreaseTime = 0. -/
def runDifficultyV1 (times : List ℕ) : Int × Int × ℕ :=
  times.foldl (fun s t => increaseDifficultyV1 t 0 s.2.2 s.1 s.2.1) (80, 6, 0)

def restartButtonRect : Rect := ⟨SCREEN_WIDTH / 2 - 50, SCREEN_HEIGHT / 2 - 20, 100, 40⟩
def homeButtonRect : Rect := ⟨SCREEN_WIDTH / 2 - 50, SCREEN_HEIGHT / 2 + 30, 100, 40⟩

def insideRect (mx my : Int) (r : Rect) : Bool :=
  mx ≥ r.x && mx ≤ r.x + r.w && my ≥ r.y && my ≤ r.y + r.h

inductive Key
  | a
  | d
  | r
  | h
  | escape
  | other
deriving DecidableEq

inductive GEvent
  | quit
  | keydown (k : Key)
  | mousedown (mx my : Int)
deriving DecidableEq

/-- Game::resetCars (second revision): reposition both cars to their rest
lanes and reset the session fields. -/
def resetCars (g : Game) : Game :=
  { g with
    blueCar := { g.blueCar with x := LANE_1, y := SCREEN_HEIGHT - 100, w := CAR_WIDTH, h := CAR_HEIGHT },
    redCar := { g.redCar with x := LANE_4, y := SCREEN_HEIGHT - 100, w := CAR_WIDTH, h := CAR_HEIGHT },
    score := 0, obstacles := [], spawnRate := 80, obstacleSpeed := 6 }

/-- The lane-toggle effect of the A key on the blue car. -/
def toggleBlue (now : ℕ) (g : Game) : Game :=
  let t := if g.blueCar.x = LANE_1 then LANE_2 else LANE_1
  { g with blueCar := { g.blueCar with
                          targetX := t, moving := true, moveStartTime := now,
                          rotating := true, rotationStartTime := now } }

/-- The lane-toggle effect of the D key on the red car. -/
def toggleRed (now : ℕ) (g : Game) : Game :=
  let t := if g.redCar.x = LANE_4 then LANE_3 else LANE_4
  { g with redCar := { g.redCar with
                         targetX := t, moving := true, moveStartTime := now,
                         rotating := true, rotationStartTime := now } }

/-- Game::handleEvents of the first revision. -/
def handleEventsV1 (now : ℕ) (ev : GEvent) (g : Game) : Game :=
  match ev with
  | GEvent.quit => { g with isRunning := false }
  | GEvent.keydown k =>
    match g.state with
    | GameState.MAIN_MENU => { g with state := GameState.NORMAL_MODE, startTime := now }
    | GameState.NORMAL_MODE =>
      match k with
      | Key.escape => { g with state := GameState.MAIN_MENU }
      | Key.a => toggleBlue now g
      | Key.d => toggleRed now g
      | _ => g
    | GameState.DEATH_SCREEN =>
      match k with
      | Key.r => { g with state := GameState.NORMAL_MODE, score := 0, obstacles := [],
                          startTime := now, spawnRate := 80, obstacleSpeed := 6 }
      | Key.h => { g with state := GameState.MAIN_MENU, score := 0, obstacles := [],
                          spawnRate := 80, obstacleSpeed := 6 }
      | _ => g
  | GEvent.mousedown mx my =>
    match g.state with
    | GameState.DEATH_SCREEN =>
      if insideRect mx my restartButtonRect then
        { g with state := GameState.NORMAL_MODE, score := 0, obstacles := [],
                 startTime := now, spawnRate := 80, obstacleSpeed := 6 }
      else if insideRect mx my homeButtonRect then
        { g with state := GameState.MAIN_MENU, score := 0, obstacles := [],
                 spawnRate := 80, obstacleSpeed := 6 }
      else g
    | _ => g

/-- Game::handleEvents of the second revision. -/
def handleEventsV2 (now : ℕ) (ev : GEvent) (g : Game) : Game :=
  match ev with
  | GEvent.quit => { g with isRunning := false }
  | GEvent.keydown k =>
    match g.state with
    | GameState.MAIN_MENU => resetCars { g with state := GameState.NORMAL_MODE, startTime := now }
    | GameState.NORMAL_MODE =>
      match k with
      | Key.escape => { g with state := GameState.MAIN_MENU, score := 0, obstacles := [],
                               spawnRate := 80, obstacleSpeed := 6 }
      | Key.a => toggleBlue now g
      | Key.d => toggleRed now g
      | _ => g
    | GameState.DEATH_SCREEN =>
      match k with
      | Key.r => resetCars { g with startTime := now, state := GameState.NORMAL_MODE }
      | Key.h => resetCars { g with startTime := now, state := GameState.MAIN_MENU }
      | _ => g
  | GEvent.mousedown mx my =>
    match g.state with
    | GameState.MAIN_MENU => resetCars { g with state := GameState.NORMAL_MODE, startTime := now }
    | GameState.NORMAL_MODE => g
    | GameState.DEATH_SCREEN =>
      if insideRect mx my restartButtonRect then
        resetCars { g with state := GameState.NORMAL_MODE, startTime := now }
      else if insideRect mx my homeButtonRect then
        resetCars { g with state := GameState.MAIN_MENU }
      else g

def XOR_KEY : ℕ := 0xA5A5A5A5

/-- Game::saveHighscore of the second revision: the 32-bit pattern of the
highscore xored with the key is written to player.dat.  The file content
is the returned value. -/
def saveHighscoreV2 (highscore : ℕ) : Option ℕ :=
  some (highscore ^^^ XOR_KEY)

/-- Game::loadHighscore of the second revision: a missing file leaves the
highscore untouched, otherwise the stored pattern is xored back. -/
def loadHighscoreV2 (file : Option ℕ) (highscore : ℕ) : ℕ :=
  match file with
  | none => highscore
  | some enc => enc ^^^ XOR_KEY

/-- Game::saveHighscore of the first revision: the integer is written in
text form to highscore.txt, unobfuscated. -/
def saveHighscoreV1 (highscore : Int) : Option Int :=
  some highscore

/-- Game::loadHighscore of the first revision. -/
def loadHighscoreV1 (file : Option Int) (highscore : Int) : Int :=
  match file with
  | none => highscore
  | some v => v

end TwoCars

namespace TwoCars

/-- C9: a missing persistence file leaves the highscore at its default 0,
and save-then-load returns the stored value unchanged: in the second
revision the XOR with 0xA5A5A5A5 applied before the binary write is
inverted after the read (stated over the 32-bit patterns), and in the
first revision the text roundtrip is the identity. -/
theorem C9_highscore_persistence_roundtrip :
    (∀ v highscore : ℕ, loadHighscoreV2 (saveHighscoreV2 v) highscore = v) ∧
    loadHighscoreV2 none 0 = 0 ∧
    (∀ v highscore : Int, loadHighscoreV1 (saveHighscoreV1 v) highscore = v) ∧
    loadHighscoreV1 none 0 = 0 := by
  refine ⟨fun v highscore => ?_, rfl, fun v highscore => rfl, rfl⟩
  simp [loadHighscoreV2, saveHighscoreV2, Nat.xor_assoc]

/-- C3 counterexample: a first-revision Playing session started at time 0
from the reset values (spawnRate, obstacleSpeed) = (80, 6), with the
difficulty step applied at 15 s, 30 s, 45 s, 60 s and 75 s, ends with
spawnRate = 0 (below the floor of 10 and not positive) and
obstacleSpeed = 16 (above the ceiling of 15), refuting the claim. -/
theorem C3_counterexample :
    (runDifficultyV1 [15000, 30000, 45000, 60000, 75000]).1 = 0 ∧
    (runDifficultyV1 [15000, 30000, 45000, 60000, 75000]).2.1 = 16 ∧
    ¬(10 ≤ (runDifficultyV1 [15000, 30000, 45000, 60000, 75000]).1) ∧
    ¬(0 < (runDifficultyV1 [15000, 30000, 45000, 60000, 75000]).1) ∧
    ¬((runDifficultyV1 [15000, 30000, 45000, 60000, 75000]).2.1 ≤ 15) := by
  decide

/-- C3 amended: within one Playing session each increaseDifficulty call
leaves spawnRate non-increasing and obstacleSpeed non-decreasing, in both
revisions; along any session started from the reset values (80, 6) the
inductive invariant "spawnRate is a multiple of 20 and at least 0 (first
revision) resp. at least 20 (second revision), and obstacleSpeed is
between 6 and 16" is preserved by every call and holds initially; so the
first revision may drive spawnRate to exactly 0, and in both revisions
obstacleSpeed may reach 16, one step above the guard threshold 15. -/
theorem C3_amended_difficulty_monotone_and_bounds :
    (∀ now st li sr sp, (increaseDifficultyV1 now st li sr sp).1 ≤ sr ∧
        sp ≤ (increaseDifficultyV1 now st li sr sp).2.1) ∧
    (∀ now st li sr sp, (increaseDifficultyV2 now st li sr sp).1 ≤ sr ∧
        sp ≤ (increaseDifficultyV2 now st li sr sp).2.1) ∧
    (∀ now st li sr sp, sr % 20 = 0 → 0 ≤ sr → 6 ≤ sp → sp ≤ 16 →
        (increaseDifficultyV1 now st li sr sp).1 % 20 = 0 ∧
        0 ≤ (increaseDifficultyV1 now st li sr sp).1 ∧
        6 ≤ (increaseDifficultyV1 now st li sr sp).2.1 ∧
        (increaseDifficultyV1 now st li sr sp).2.1 ≤ 16) ∧
    (∀ now st li sr sp, sr % 20 = 0 → 20 ≤ sr → 6 ≤ sp → sp ≤ 16 →
        (increaseDifficultyV2 now st li sr sp).1 % 20 = 0 ∧
        20 ≤ (increaseDifficultyV2 now st li sr sp).1 ∧
        6 ≤ (increaseDifficultyV2 now st li sr sp).2.1 ∧
        (increaseDifficultyV2 now st li sr sp).2.1 ≤ 16) ∧
    ((80 : Int) % 20 = 0 ∧ (0 : Int) ≤ 80 ∧ (20 : Int) ≤ 80 ∧ (6 : Int) ≤ 6 ∧ (6 : Int) ≤ 16) := by
  refine ⟨fun now st li sr sp => ?_, fun now st li sr sp => ?_,
          fun now st li sr sp h20 h0 h6 h16 => ?_,
          fun now st li sr sp h20 h0 h6 h16 => ?_, by norm_num⟩ <;>
    simp only [increaseDifficultyV1, increaseDifficultyV2] <;>
    split_ifs <;> simp_all <;> omega

/-- C3 amended witness: the invariant clauses evaluated on concrete
triggering calls. -/
theorem C3_amended_witness :
    ((increaseDifficultyV1 15000 0 0 80 6).1 % 20 = 0 ∧
     0 ≤ (increaseDifficultyV1 15000 0 0 80 6).1 ∧
     6 ≤ (increaseDifficultyV1 15000 0 0 80 6).2.1 ∧
     (increaseDifficultyV1 15000 0 0 80 6).2.1 ≤ 16) ∧
    ((increaseDifficultyV2 30000 0 0 80 6).1 % 20 = 0 ∧
     20 ≤ (increaseDifficultyV2 30000 0 0 80 6).1 ∧
     6 ≤ (increaseDifficultyV2 30000 0 0 80 6).2.1 ∧
     (increaseDifficultyV2 30000 0 0 80 6).2.1 ≤ 16) :=
  ⟨C3_amended_difficulty_monotone_and_bounds.2.2.1 15000 0 0 80 6
      (by decide) (by decide) (by decide) (by decide),
   C3_amended_difficulty_monotone_and_bounds.2.2.2.1 30000 0 0 80 6
      (by decide) (by decide) (by decide) (by decide)⟩

/-- C8: for a running 200 ms car animation, the rotation angle at elapsed
time 0 is 0; whenever the elapsed time has reached the duration,
updateRotation sets the angle to exactly 0 and clears the rotating flag,
and updateMovement sets the x position to exactly targetX and clears the
moving flag. -/
theorem C8_animation_boundary (c : Car) (now : ℕ) :
    (c.rotating = true → (updateRotation c.rotationStartTime c).angle = 0) ∧
    (c.rotating = true → c.rotationStartTime + rotationDuration ≤ now →
      (updateRotation now c).angle = 0 ∧ (updateRotation now c).rotating = false) ∧
    (c.moving = true → c.moveStartTime + moveDuration ≤ now →
      (updateMovement now c).x = c.targetX ∧ (updateMovement now c).moving = false) := by
  refine ⟨fun hr => ?_, fun hr hn => ?_, fun hm hn => ?_⟩
  · simp [updateRotation, hr, rotationDuration]
  · have hlt : ¬(now - c.rotationStartTime < rotationDuration) := by
      simp only [rotationDuration] at *; omega
    simp [updateRotation, hr, hlt]
  · have hlt : ¬(now - c.moveStartTime < moveDuration) := by
      simp only [moveDuration] at *; omega
    simp [updateMovement, hm, hlt]

def carW : Car :=
  { x := 30, y := 620, w := 40, h := 65, angle := 1, rotating := true,
    rotationStartTime := 100, moving := true, targetX := 131, moveStartTime := 100 }

/-- C8 witness: the boundary facts evaluated on a concrete animation
started at 100 ms and sampled at 100 ms and 300 ms. -/
theorem C8_witness :
    (updateRotation 100 carW).angle = 0 ∧
    (updateRotation 300 carW).angle = 0 ∧ (updateRotation 300 carW).rotating = false ∧
    (updateMovement 300 carW).x = 131 ∧ (updateMovement 300 carW).moving = false := by
  obtain ⟨h1, h2, h3⟩ := C8_animation_boundary carW 300
  have g1 := h1 rfl
  have g2 := h2 rfl (by decide)
  have g3 := h3 rfl (by decide)
  exact ⟨g1, g2.1, g2.2, g3.1, g3.2⟩

end TwoCars

namespace TwoCars

def car0 : Car :=
  { x := LANE_1, y := SCREEN_HEIGHT - 100, w := CAR_WIDTH, h := CAR_HEIGHT, angle := 0,
    rotating := false, rotationStartTime := 0, moving := false, targetX := 0, moveStartTime := 0 }

def car1 : Car := { car0 with x := LANE_4 }

/-- A concrete freshly reset game used as input to the witnesses. -/
def game0 : Game :=
  { isRunning := true, state := GameState.NORMAL_MODE, obstacles := [], blueCar := car0,
    redCar := car1, startTime := 0, score := 0, spawnRate := 80, obstacleSpeed := 6,
    highscore := 0, patternTimer := 0, saves := 0 }

def obstacleW : Entity :=
  { kind := some Kind.redBox, x := LANE_3, y := 0, w := OBSTACLE_SIZE, h := OBSTACLE_SIZE,
    collected := false }

/-- A concrete game with one live obstacle, used as input to witnesses. -/
def game1 : Game := { game0 with obstacles := [obstacleW] }

def entity0 (l0 : ℕ) (c0 : Bool) (obs : List Entity) : Entity :=
  spawnEntity l0 (chooseKind l0 c0 {}).1 obs

def entity1 (l0 l1 : ℕ) (c0 c1 : Bool) (obs : List Entity) : Entity :=
  spawnEntity l1 (chooseKind l1 c1 (chooseKind l0 c0 {}).2).1 (obs ++ [entity0 l0 c0 obs])

def kind0 (l0 : ℕ) (c0 : Bool) : Option Kind := (chooseKind l0 c0 {}).1

def kind1 (l0 l1 : ℕ) (c0 c1 : Bool) : Option Kind :=
  (chooseKind l1 c1 (chooseKind l0 c0 {}).2).1

theorem spawnPattern_eq (l0 l1 : ℕ) (c0 c1 : Bool) (obs : List Entity) :
    spawnPattern l0 l1 c0 c1 obs = obs ++ [entity0 l0 c0 obs, entity1 l0 l1 c0 c1 obs] := by
  simp [spawnPattern, spawnIter, entity0, entity1]

theorem entity0_kind (l0 : ℕ) (c0 : Bool) (obs : List Entity) :
    (entity0 l0 c0 obs).kind = kind0 l0 c0 := rfl

theorem entity1_kind (l0 l1 : ℕ) (c0 c1 : Bool) (obs : List Entity) :
    (entity1 l0 l1 c0 c1 obs).kind = kind1 l0 l1 c0 c1 := rfl

theorem kinds_distinct (l0 l1 : ℕ) (c0 c1 : Bool) (h0 : l0 < 4) (h1 : l1 < 4)
    (hne : l0 ≠ l1) (k : Kind) :
    ¬(kind0 l0 c0 = some k ∧ kind1 l0 l1 c0 c1 = some k) := by
  interval_cases l0 <;> interval_cases l1 <;>
    first
    | exact absurd rfl hne
    | (revert hne; cases c0 <;> cases c1 <;> cases k <;> decide)

/-- C1: whenever the countdown is zero, the pair of entities created by a
single spawnObstacle call contains at most one entity of each texture
kind (red box, red circle, blue box, blue circle), for every outcome of
the lane permutation and the two coin flips; in particular no call ever
creates two lethal boxes of the same color. -/
theorem C1_spawn_at_most_one_of_each_kind (g : Game) (l0 l1 : ℕ) (c0 c1 : Bool)
    (h0 : l0 < 4) (h1 : l1 < 4) (hne : l0 ≠ l1) (ht : g.patternTimer = 0)
    (k : Kind) :
    (((spawnObstacle l0 l1 c0 c1 g).obstacles).drop g.obstacles.length).countP
      (fun e => decide (e.kind = some k)) ≤ 1 := by
  have hobs : (spawnObstacle l0 l1 c0 c1 g).obstacles = spawnPattern l0 l1 c0 c1 g.obstacles := by
    simp [spawnObstacle, ht]
  rw [hobs, spawnPattern_eq, List.drop_left]
  have hd := kinds_distinct l0 l1 c0 c1 h0 h1 hne k
  by_cases hk0 : kind0 l0 c0 = some k <;> by_cases hk1 : kind1 l0 l1 c0 c1 = some k
  · exact absurd ⟨hk0, hk1⟩ hd
  all_goals
    simp [List.countP_cons, entity0_kind, entity1_kind, hk0, hk1]

/-- C1 witness: the bound evaluated for the red box on a concrete call. -/
theorem C1_witness :
    (((spawnObstacle 2 0 true true game0).obstacles).drop game0.obstacles.length).countP
      (fun e => decide (e.kind = some Kind.redBox)) ≤ 1 :=
  C1_spawn_at_most_one_of_each_kind game0 2 0 true true (by decide) (by decide)
    (by decide) rfl Kind.redBox

/-- C2 counterexample: with the countdown at zero, the permutation
starting 0, 1 and both coin flips choosing the circle branch, the call
creates two entities both on red-side lanes (LANE_3 and LANE_4), none on
a blue-side lane, and the second entity is left without any assigned
kind (its texture pointer is never written), refuting the claim. -/
theorem C2_counterexample :
    ((spawnObstacle 0 1 false false game0).obstacles).map (fun e => (e.kind, e.x)) =
      [(some Kind.redCircle, LANE_3), (none, LANE_4)] ∧
    (¬ ∃ e ∈ (spawnObstacle 0 1 false false game0).obstacles, e.x = LANE_1 ∨ e.x = LANE_2) ∧
    (∃ e ∈ (spawnObstacle 0 1 false false game0).obstacles, e.kind = none) := by
  decide

theorem kind0_ne_none (l0 : ℕ) (c0 : Bool) : kind0 l0 c0 ≠ none := by
  unfold kind0 chooseKind
  split_ifs <;> simp_all

theorem kind1_ne_none_of_sides (l0 l1 : ℕ) (c0 c1 : Bool) (h0 : l0 < 4) (h1 : l1 < 4)
    (hside : (l0 = 0 ∨ l0 = 1) ↔ ¬(l1 = 0 ∨ l1 = 1)) :
    kind1 l0 l1 c0 c1 ≠ none := by
  interval_cases l0 <;> interval_cases l1 <;> revert hside <;>
    cases c0 <;> cases c1 <;> decide

theorem laneX_red_side (l : ℕ) (h : l = 0 ∨ l = 1) :
    laneX l = LANE_3 ∨ laneX l = LANE_4 := by
  rcases h with rfl | rfl <;> simp [laneX]

theorem laneX_blue_side (l : ℕ) (h : ¬(l = 0 ∨ l = 1)) :
    laneX l = LANE_1 ∨ laneX l = LANE_2 := by
  by_cases h2 : l = 2 <;> simp [laneX, h, h2]

/-- C2 amended: whenever the countdown is zero, a spawnObstacle call
appends exactly two entities; the i-th entity sits on the red-side lane
x (LANE_3 or LANE_4) when its permuted lane value is 0 or 1 and on the
blue-side lane x (LANE_1 or LANE_2) otherwise; the first entity always
receives a definite kind; and when the two permuted lane values lie on
opposite sides, the second entity also receives a definite kind and the
pair consists of one red-side and one blue-side entity.  (When both lane
values fall on the same side, the pair may sit entirely on that side and
the second entity can be left without an assigned kind.) -/
theorem C2_amended_spawn_pair_shape (g : Game) (l0 l1 : ℕ) (c0 c1 : Bool)
    (h0 : l0 < 4) (h1 : l1 < 4) (hne : l0 ≠ l1) (ht : g.patternTimer = 0) :
    ∃ e0 e1,
      (spawnObstacle l0 l1 c0 c1 g).obstacles = g.obstacles ++ [e0, e1] ∧
      e0.x = laneX l0 ∧ e1.x = laneX l1 ∧
      e0.kind ≠ none ∧
      (((l0 = 0 ∨ l0 = 1) ↔ ¬(l1 = 0 ∨ l1 = 1)) →
        (e1.kind ≠ none ∧
         ((e0.x = LANE_3 ∨ e0.x = LANE_4) ∧ (e1.x = LANE_1 ∨ e1.x = LANE_2) ∨
          (e0.x = LANE_1 ∨ e0.x = LANE_2) ∧ (e1.x = LANE_3 ∨ e1.x = LANE_4)))) := by
  refine ⟨entity0 l0 c0 g.obstacles, entity1 l0 l1 c0 c1 g.obstacles, ?_, rfl, rfl, ?_, ?_⟩
  · simp [spawnObstacle, ht, spawnPattern_eq]
  · exact kind0_ne_none l0 c0
  · intro hside
    refine ⟨kind1_ne_none_of_sides l0 l1 c0 c1 h0 h1 hside, ?_⟩
    by_cases hs0 : l0 = 0 ∨ l0 = 1
    · exact Or.inl ⟨laneX_red_side l0 hs0, laneX_blue_side l1 (hside.mp hs0)⟩
    · have hs1 : l1 = 0 ∨ l1 = 1 := by
        by_contra hc
        exact hs0 (hside.mpr hc)
      exact Or.inr ⟨laneX_blue_side l0 hs0, laneX_red_side l1 hs1⟩

/-- C2 amended witness: the pair shape evaluated on a concrete call with
lane values 3 and 0 (opposite sides). -/
theorem C2_amended_witness :
    ∃ e0 e1,
      (spawnObstacle 3 0 false true game0).obstacles = game0.obstacles ++ [e0, e1] ∧
      e0.x = laneX 3 ∧ e1.x = laneX 0 ∧
      e0.kind ≠ none ∧
      ((((3 : ℕ) = 0 ∨ (3 : ℕ) = 1) ↔ ¬((0 : ℕ) = 0 ∨ (0 : ℕ) = 1)) →
        (e1.kind ≠ none ∧
         ((e0.x = LANE_3 ∨ e0.x = LANE_4) ∧ (e1.x = LANE_1 ∨ e1.x = LANE_2) ∨
          (e0.x = LANE_1 ∨ e0.x = LANE_2) ∧ (e1.x = LANE_3 ∨ e1.x = LANE_4)))) :=
  C2_amended_spawn_pair_shape game0 3 0 false true (by decide) (by decide) (by decide) rfl

theorem spawnY_gap (k : Option Kind) (obs : List Entity) (lastObstacle : Entity)
    (hk : k ≠ none) (hl : obs.getLast? = some lastObstacle) :
    CAR_HEIGHT + 10 ≤ lastObstacle.y - spawnY k obs := by
  obtain ⟨kk, rfl⟩ := Option.ne_none_iff_exists'.mp hk
  have hc : CAR_HEIGHT = 65 := by decide
  have ho : OBSTACLE_SIZE = 40 := by decide
  cases kk <;> simp [spawnY, hl, hc, ho] <;> split_ifs <;> omega

/-- C7: whenever the countdown is zero, each of the two entities appended
by a spawnObstacle call that has an assigned kind is placed at least
CAR_HEIGHT + 10 pixels above the entity spawned immediately before it
(the last element of the obstacle vector for the first entity, and the
first entity for the second); in particular consecutively spawned
same-type entities are vertically separated by at least CAR_HEIGHT + 10
at the moment the later one is spawned. -/
theorem C7_minimum_gap (g : Game) (l0 l1 : ℕ) (c0 c1 : Bool)
    (h0 : l0 < 4) (h1 : l1 < 4) (hne : l0 ≠ l1) (ht : g.patternTimer = 0) :
    ∃ e0 e1,
      (spawnObstacle l0 l1 c0 c1 g).obstacles = g.obstacles ++ [e0, e1] ∧
      (∀ lastObstacle k, g.obstacles.getLast? = some lastObstacle →
        e0.kind = some k → CAR_HEIGHT + 10 ≤ lastObstacle.y - e0.y) ∧
      (∀ k, e1.kind = some k → CAR_HEIGHT + 10 ≤ e0.y - e1.y) := by
  refine ⟨entity0 l0 c0 g.obstacles, entity1 l0 l1 c0 c1 g.obstacles, ?_, ?_, ?_⟩
  · simp [spawnObstacle, ht, spawnPattern_eq]
  · intro lastObstacle k hl hk
    exact spawnY_gap (kind0 l0 c0) g.obstacles lastObstacle (by rw [← entity0_kind l0 c0 g.obstacles, hk]; simp) hl
  · intro k hk
    have hlast : (g.obstacles ++ [entity0 l0 c0 g.obstacles]).getLast? =
        some (entity0 l0 c0 g.obstacles) := by
      simp
    exact spawnY_gap (kind1 l0 l1 c0 c1) (g.obstacles ++ [entity0 l0 c0 g.obstacles])
      (entity0 l0 c0 g.obstacles) (by rw [← entity1_kind l0 l1 c0 c1 g.obstacles, hk]; simp) hlast

end TwoCars

namespace TwoCars

theorem cullStep_eq (st : GameState) (o : Entity) :
    cullStep st o =
      if o.y > SCREEN_HEIGHT ∧
          (o.kind = some Kind.redCircle ∨ o.kind = some Kind.blueCircle) ∧
          o.collected = false
      then GameState.DEATH_SCREEN else st := by
  unfold cullStep
  split_ifs <;> simp_all

theorem foldl_cullStep (l : List Entity) (st : GameState) :
    l.foldl cullStep st =
      if ∃ o ∈ l, o.y > SCREEN_HEIGHT ∧
          (o.kind = some Kind.redCircle ∨ o.kind = some Kind.blueCircle) ∧
          o.collected = false
      then GameState.DEATH_SCREEN else st := by
  induction l generalizing st with
  | nil => simp
  | cons o rest ih =>
    rw [List.foldl_cons, ih, cullStep_eq]
    by_cases h1 : o.y > SCREEN_HEIGHT ∧
        (o.kind = some Kind.redCircle ∨ o.kind = some Kind.blueCircle) ∧ o.collected = false <;>
      simp [h1]

/-- C6: after updateObstacles no remaining obstacle lies below the screen
(y stays at most SCREEN_HEIGHT); starting from the Playing state, the
call ends in DEATH_SCREEN exactly when some removed entity (one whose
advanced y exceeds the screen height) is an uncollected circle; and the
score is unchanged. -/
theorem C6_cull_miss_gameover (g : Game) (h : g.state = GameState.NORMAL_MODE) :
    (∀ o ∈ (updateObstacles g).obstacles, o.y ≤ SCREEN_HEIGHT) ∧
    ((updateObstacles g).state = GameState.DEATH_SCREEN ↔
      ∃ o ∈ g.obstacles, o.y + g.obstacleSpeed > SCREEN_HEIGHT ∧
        (o.kind = some Kind.redCircle ∨ o.kind = some Kind.blueCircle) ∧
        o.collected = false) ∧
    (updateObstacles g).score = g.score := by
  refine ⟨?_, ?_, rfl⟩
  · intro o ho
    simp only [updateObstacles, List.mem_filter, decide_eq_true_eq] at ho
    exact ho.2
  · have hst : (updateObstacles g).state =
        (g.obstacles.map (fun o => { o with y := o.y + g.obstacleSpeed })).foldl
          cullStep g.state := rfl
    have hmap : (∃ o ∈ g.obstacles.map (fun o => { o with y := o.y + g.obstacleSpeed }),
          o.y > SCREEN_HEIGHT ∧
            (o.kind = some Kind.redCircle ∨ o.kind = some Kind.blueCircle) ∧
            o.collected = false) ↔
        (∃ o ∈ g.obstacles, o.y + g.obstacleSpeed > SCREEN_HEIGHT ∧
          (o.kind = some Kind.redCircle ∨ o.kind = some Kind.blueCircle) ∧
          o.collected = false) := by
      simp [List.mem_map]
    rw [hst, foldl_cullStep]
    by_cases hc : ∃ o ∈ g.obstacles.map (fun o => { o with y := o.y + g.obstacleSpeed }),
        o.y > SCREEN_HEIGHT ∧
          (o.kind = some Kind.redCircle ∨ o.kind = some Kind.blueCircle) ∧
          o.collected = false
    · rw [if_pos hc]
      exact iff_of_true rfl (hmap.mp hc)
    · rw [if_neg hc, h]
      exact iff_of_false (by simp) (fun he => hc (hmap.mpr he))

/-- A concrete game whose blue circle is about to leave the screen. -/
def game2 : Game :=
  { game0 with obstacles :=
      [ { kind := some Kind.blueCircle, x := LANE_1, y := 715, w := OBSTACLE_SIZE,
          h := OBSTACLE_SIZE, collected := false }, obstacleW ] }

/-- C6 witness: the cull facts evaluated on a concrete game where an
uncollected blue circle crosses the bottom of the screen. -/
theorem C6_witness :
    (∀ o ∈ (updateObstacles game2).obstacles, o.y ≤ SCREEN_HEIGHT) ∧
    ((updateObstacles game2).state = GameState.DEATH_SCREEN ↔
      ∃ o ∈ game2.obstacles, o.y + game2.obstacleSpeed > SCREEN_HEIGHT ∧
        (o.kind = some Kind.redCircle ∨ o.kind = some Kind.blueCircle) ∧
        o.collected = false) ∧
    (updateObstacles game2).score = game2.score :=
  C6_cull_miss_gameover game2 rfl

end TwoCars

namespace TwoCars

theorem collideOneStep_eq (red blue : Rect) (o : Entity) (s : Int) (st : GameState) :
    collideOneStep red blue o s st =
      (s + (if newlyCollected red blue o then 1 else 0),
       (if boxHit red blue o then GameState.DEATH_SCREEN else st),
       { o with collected := o.collected || newlyCollected red blue o }) := by
  obtain ⟨k, x, y, w, h, c⟩ := o
  by_cases hr : hasIntersection red (Entity.rect ⟨k, x, y, w, h, c⟩) = true <;>
    by_cases hb : hasIntersection blue (Entity.rect ⟨k, x, y, w, h, c⟩) = true <;>
    rcases k with _ | (_ | _ | _ | _) <;> cases c <;>
    simp_all [collideOneStep, newlyCollected, boxHit, Entity.rect]

theorem collideList_eq (red blue : Rect) (l : List Entity) : ∀ (s : Int) (st : GameState),
    collideList red blue l s st =
      (s + (l.countP (newlyCollected red blue) : Int),
       (if l.any (boxHit red blue) then GameState.DEATH_SCREEN else st),
       l.map (fun o => { o with collected := o.collected || newlyCollected red blue o })) := by
  induction l with
  | nil => intro s st; simp [collideList]
  | cons o rest ih =>
    intro s st
    simp only [collideList, collideOneStep_eq, ih]
    by_cases hn : newlyCollected red blue o = true <;>
      by_cases hb : boxHit red blue o = true <;>
      by_cases ha : rest.any (boxHit red blue) = true <;>
      simp [hn, hb, ha, List.countP_cons] <;> push_cast <;> ring

/-- C10 (implicit): a checkCollision call processes the whole obstacle
list even after a lethal box intersection has set DEATH_SCREEN: the
score always grows by the number of uncollected circles touching the car
of their color (whether or not a box was hit in the same call), every
entity marked collected is removed before the call returns, and the
state becomes DEATH_SCREEN exactly when some box touches the car of its
color. -/
theorem C10_collection_continues_after_death (g : Game) :
    (checkCollision g).score =
      g.score + (g.obstacles.countP (newlyCollected g.redCar.rect g.blueCar.rect) : Int) ∧
    (∀ o ∈ (checkCollision g).obstacles, o.collected = false) ∧
    (checkCollision g).state =
      (if g.obstacles.any (boxHit g.redCar.rect g.blueCar.rect) then GameState.DEATH_SCREEN
       else g.state) := by
  have hr := collideList_eq g.redCar.rect g.blueCar.rect g.obstacles g.score g.state
  simp only [checkCollision, hr]
  split_ifs <;>
    refine ⟨rfl, ?_, rfl⟩ <;>
    · intro o ho
      simp only [List.mem_filter, Bool.not_eq_true'] at ho
      exact ho.2

/-- C5: if a Playing tick (updateObstacles then checkCollision, the order
of Game::update) ends in DEATH_SCREEN, the highscore is the maximum of
its previous value and the final score of that tick, hence at least the
score, and saveHighscore is invoked in that tick (saves grows by one)
exactly when the score strictly exceeds the previous highscore;
otherwise the highscore and the save counter are untouched. -/
theorem C5_highscore_on_gameover (g : Game) (h : g.state = GameState.NORMAL_MODE) :
    ((checkCollision (updateObstacles g)).state = GameState.DEATH_SCREEN →
      (checkCollision (updateObstacles g)).highscore =
        max g.highscore (checkCollision (updateObstacles g)).score ∧
      (checkCollision (updateObstacles g)).score ≤ (checkCollision (updateObstacles g)).highscore ∧
      ((checkCollision (updateObstacles g)).saves = g.saves + 1 ↔
        g.highscore < (checkCollision (updateObstacles g)).score)) ∧
    ((checkCollision (updateObstacles g)).state ≠ GameState.DEATH_SCREEN →
      (checkCollision (updateObstacles g)).highscore = g.highscore ∧
      (checkCollision (updateObstacles g)).saves = g.saves) := by
  have hh : (updateObstacles g).highscore = g.highscore := rfl
  have hsv : (updateObstacles g).saves = g.saves := rfl
  rcases hE : collideList (updateObstacles g).redCar.rect (updateObstacles g).blueCar.rect
      (updateObstacles g).obstacles (updateObstacles g).score (updateObstacles g).state
    with ⟨s, st, lst⟩
  simp only [checkCollision, hE, hh, hsv]
  split_ifs with hcond
  · exact ⟨fun _ => ⟨(max_eq_right hcond.2.le).symm, le_refl _, iff_of_true rfl hcond.2⟩,
           fun hne => absurd hcond.1 hne⟩
  · refine ⟨fun hst => ?_, fun _ => ⟨rfl, rfl⟩⟩
    have hle : ¬ g.highscore < s := fun hgt => hcond ⟨hst, hgt⟩
    exact ⟨(max_eq_left (not_lt.mp hle)).symm, not_lt.mp hle,
           iff_of_false (by simp) hle⟩

/-- A concrete game one tick away from a lethal red box collision, with
score 3 and highscore 1. -/
def game3 : Game :=
  { game0 with
    obstacles := [ { kind := some Kind.redBox, x := LANE_4, y := 600, w := OBSTACLE_SIZE,
                     h := OBSTACLE_SIZE, collected := false } ],
    score := 3, highscore := 1 }

/-- C5 witness: the highscore facts evaluated on a concrete tick in which
a red box hits the red car with score 3 against highscore 1. -/
theorem C5_witness :
    (checkCollision (updateObstacles game3)).highscore =
      max game3.highscore (checkCollision (updateObstacles game3)).score ∧
    (checkCollision (updateObstacles game3)).score ≤
      (checkCollision (updateObstacles game3)).highscore ∧
    ((checkCollision (updateObstacles game3)).saves = game3.saves + 1 ↔
      game3.highscore < (checkCollision (updateObstacles game3)).score) :=
  (C5_highscore_on_gameover game3 rfl).1 (by decide)

end TwoCars

namespace TwoCars

/-- A concrete first-revision main-menu state carrying a stale session
(score 5, one live obstacle, tightened spawnRate, blue car away from its
rest lane), as left behind by the first revision's escape key. -/
def game4 : Game :=
  { game0 with state := GameState.MAIN_MENU, score := 5, spawnRate := 40,
               obstacles := [obstacleW], blueCar := { car0 with x := LANE_2 } }

/-- C4 counterexample: in the first revision, a key press on the main
menu enters the Playing state but resets nothing: the score stays 5 (not
0), the obstacle list stays nonempty, spawnRate stays 40 (not 80) and
the blue car stays at LANE_2 instead of its rest lane LANE_1, refuting
the claim that every transition into Playing resets the session. -/
theorem C4_counterexample :
    (handleEventsV1 1000 (GEvent.keydown Key.other) game4).state = GameState.NORMAL_MODE ∧
    (handleEventsV1 1000 (GEvent.keydown Key.other) game4).score = 5 ∧
    ¬((handleEventsV1 1000 (GEvent.keydown Key.other) game4).score = 0) ∧
    (handleEventsV1 1000 (GEvent.keydown Key.other) game4).obstacles = [obstacleW] ∧
    ¬((handleEventsV1 1000 (GEvent.keydown Key.other) game4).obstacles = []) ∧
    (handleEventsV1 1000 (GEvent.keydown Key.other) game4).spawnRate = 40 ∧
    ¬((handleEventsV1 1000 (GEvent.keydown Key.other) game4).spawnRate = 80) ∧
    (handleEventsV1 1000 (GEvent.keydown Key.other) game4).blueCar.x = LANE_2 ∧
    ¬((handleEventsV1 1000 (GEvent.keydown Key.other) game4).blueCar.x = LANE_1) := by
  refine ⟨rfl, rfl, by decide, rfl, by decide, rfl, by decide, rfl, by decide⟩

/-- C4 amended: in the second revision, every transition into the Playing
state (from MainMenu on any key or mouse button down, from GameOver on
the restart key or a click inside the restart region) performs the full
session reset: score 0, obstacles cleared, spawnRate 80, obstacleSpeed 6,
both cars repositioned to their rest lanes, and the elapsed-time clock
restarted.  In the first revision, the MainMenu-to-Playing transition
only restarts the clock and carries every session field over unchanged,
and the GameOver-to-Playing restart resets the session fields and the
clock but leaves both cars where they were. -/
theorem C4_amended_reset_on_entering_playing :
    (∀ (now : ℕ) (ev : GEvent) (g : Game),
      g.state ≠ GameState.NORMAL_MODE →
      (handleEventsV2 now ev g).state = GameState.NORMAL_MODE →
        (handleEventsV2 now ev g).score = 0 ∧
        (handleEventsV2 now ev g).obstacles = [] ∧
        (handleEventsV2 now ev g).spawnRate = 80 ∧
        (handleEventsV2 now ev g).obstacleSpeed = 6 ∧
        (handleEventsV2 now ev g).blueCar.x = LANE_1 ∧
        (handleEventsV2 now ev g).redCar.x = LANE_4 ∧
        (handleEventsV2 now ev g).startTime = now) ∧
    (∀ (now : ℕ) (k : Key) (g : Game),
      g.state = GameState.MAIN_MENU →
        (handleEventsV1 now (GEvent.keydown k) g).state = GameState.NORMAL_MODE ∧
        (handleEventsV1 now (GEvent.keydown k) g).startTime = now ∧
        (handleEventsV1 now (GEvent.keydown k) g).score = g.score ∧
        (handleEventsV1 now (GEvent.keydown k) g).obstacles = g.obstacles ∧
        (handleEventsV1 now (GEvent.keydown k) g).spawnRate = g.spawnRate ∧
        (handleEventsV1 now (GEvent.keydown k) g).obstacleSpeed = g.obstacleSpeed ∧
        (handleEventsV1 now (GEvent.keydown k) g).blueCar = g.blueCar ∧
        (handleEventsV1 now (GEvent.keydown k) g).redCar = g.redCar) ∧
    (∀ (now : ℕ) (g : Game),
      g.state = GameState.DEATH_SCREEN →
        (handleEventsV1 now (GEvent.keydown Key.r) g).state = GameState.NORMAL_MODE ∧
        (handleEventsV1 now (GEvent.keydown Key.r) g).score = 0 ∧
        (handleEventsV1 now (GEvent.keydown Key.r) g).obstacles = [] ∧
        (handleEventsV1 now (GEvent.keydown Key.r) g).spawnRate = 80 ∧
        (handleEventsV1 now (GEvent.keydown Key.r) g).obstacleSpeed = 6 ∧
        (handleEventsV1 now (GEvent.keydown Key.r) g).startTime = now ∧
        (handleEventsV1 now (GEvent.keydown Key.r) g).blueCar = g.blueCar ∧
        (handleEventsV1 now (GEvent.keydown Key.r) g).redCar = g.redCar) := by
  refine ⟨?_, ?_, ?_⟩
  · intro now ev g hpre hpost
    match ev with
    | GEvent.quit =>
      simp only [handleEventsV2] at hpost
      exact absurd hpost hpre
    | GEvent.keydown k =>
      cases hgs : g.state with
      | MAIN_MENU =>
        simp [handleEventsV2, hgs, resetCars]
      | NORMAL_MODE => exact absurd hgs hpre
      | DEATH_SCREEN =>
        cases k <;> simp_all [handleEventsV2, resetCars, toggleBlue, toggleRed]
    | GEvent.mousedown mx my =>
      cases hgs : g.state with
      | MAIN_MENU =>
        simp [handleEventsV2, hgs, resetCars]
      | NORMAL_MODE => exact absurd hgs hpre
      | DEATH_SCREEN =>
        simp only [handleEventsV2, hgs] at hpost ⊢
        split_ifs at hpost ⊢ with h1 h2
        · simp [resetCars]
        · exact absurd hpost (by simp [resetCars])
        · exact absurd hpost hpre
  · intro now k g hgs
    simp [handleEventsV1, hgs]
  · intro now g hgs
    simp [handleEventsV1, hgs]

/-- A concrete game-over state with a stale session. -/
def game5 : Game := { game4 with state := GameState.DEATH_SCREEN }

/-- C4 amended witness: the second-revision restart key from a concrete
game-over state performs the full reset. -/
theorem C4_amended_witness :
    (handleEventsV2 777 (GEvent.keydown Key.r) game5).score = 0 ∧
    (handleEventsV2 777 (GEvent.keydown Key.r) game5).obstacles = [] ∧
    (handleEventsV2 777 (GEvent.keydown Key.r) game5).spawnRate = 80 ∧
    (handleEventsV2 777 (GEvent.keydown Key.r) game5).obstacleSpeed = 6 ∧
    (handleEventsV2 777 (GEvent.keydown Key.r) game5).blueCar.x = LANE_1 ∧
    (handleEventsV2 777 (GEvent.keydown Key.r) game5).redCar.x = LANE_4 ∧
    (handleEventsV2 777 (GEvent.keydown Key.r) game5).startTime = 777 :=
  C4_amended_reset_on_entering_playing.1 777 (GEvent.keydown Key.r) game5 (by decide) rfl

end TwoCars

namespace TwoCars

/-- C7 witness: the gap facts evaluated on a concrete call with one live
obstacle near the top of the screen. -/
theorem C7_witness :
    ∃ e0 e1,
      (spawnObstacle 0 2 true true game1).obstacles = game1.obstacles ++ [e0, e1] ∧
      (∀ lastObstacle k, game1.obstacles.getLast? = some lastObstacle →
        e0.kind = some k → CAR_HEIGHT + 10 ≤ lastObstacle.y - e0.y) ∧
      (∀ k, e1.kind = some k → CAR_HEIGHT + 10 ≤ e0.y - e1.y) :=
  C7_minimum_gap game1 0 2 true true (by decide) (by decide) (by decide) rfl

/-- C10 witness: the collision facts evaluated on the concrete game with
a lethal red box on the red car. -/
theorem C10_witness :
    (checkCollision game3).score =
      game3.score +
        (game3.obstacles.countP (newlyCollected game3.redCar.rect game3.blueCar.rect) : Int) ∧
    (∀ o ∈ (checkCollision game3).obstacles, o.collected = false) ∧
    (checkCollision game3).state =
      (if game3.obstacles.any (boxHit game3.redCar.rect game3.blueCar.rect)
       then GameState.DEATH_SCREEN else game3.state) :=
  C10_collection_continues_after_death game3

end TwoCars
